import Mathlib

/-!
# Answer State & Visibility Engine — verification development

Shallow embedding of the conditional form-rendering and answer-state engine of
the `pipfinal` repository.  The repository contains two variants of the engine:

* `src/index.tsx` — component `FormFlow`: a per-question answer store
  (one record per question, created by `makeDefault`), a visibility filter
  (`visible`, strict `===` comparison), localStorage persistence and a
  debounced generation effect with a skip guard.
* `src/unnamed/part_001` (`src/App.tsx`) — component `App`: an id-keyed answer
  record (`answers : Record<string, any>`), the predicate `visibleByWhen`
  (JavaScript `String(...)` coercion on both sides), the review normalizer
  (`safeDefaultReview` / `buildAIReview`) and the exporters
  (`exportJSON` / `exportMarkdown`).

JavaScript values that can appear as a single answer are modelled by
`AnsValue`; whole JSON documents (review records, export documents) by
`JValue`/`JObj`.  Machine integers, the clock and the network are irrelevant
to the verified properties; fallible external calls are modelled by explicit
outcome parameters.
-/

set_option maxRecDepth 4000

/-- The three supported locales (`type Lang = "fa" | "en" | "uk"`). -/
inductive Lang where
  | fa
  | en
  | uk
deriving DecidableEq, Repr

/-- The locale suffix used in dynamic keys such as `before_${lang}`. -/
def Lang.key : Lang → String
  | .fa => "fa"
  | .en => "en"
  | .uk => "uk"

/-- The nine question types of `FormQuestion.type`. -/
inductive QType where
  | longText
  | singleSelect
  | multiSelect
  | shortText
  | file
  | group
  | currency
  | number
  | date
deriving DecidableEq, Repr

/-- A JavaScript value that can be stored as one question answer:
text inputs store strings, `currency`/`number` inputs in `App` store numbers
(`Number(e.target.value)`, integral in this model), `multi-select` stores a
list of option values, `group` (in `FormFlow`) stores a map from child id to
text.  `undefined` is represented by an absent entry / `Option.none` at the
use sites. -/
inductive AnsValue where
  | str (s : String)
  | num (n : Int)
  | strList (xs : List String)
  | strMap (m : List (String × String))
deriving DecidableEq, Repr

/-- JavaScript `String(v)` on an answer value: identity on strings, decimal
rendering of numbers, `Array.prototype.join(",")` on arrays, and
`"[object Object]"` on plain objects. -/
def AnsValue.jstring : AnsValue → String
  | .str s => s
  | .num n => toString n
  | .strList xs => String.intercalate "," xs
  | .strMap _ => "[object Object]"

/-- JavaScript `String(v)` where `v` may be `undefined` (absent):
`String(undefined) = "undefined"`. -/
def jstringOpt (v : Option AnsValue) : String :=
  match v with
  | none => "undefined"
  | some a => a.jstring

/-- One question definition (`type FormQuestion`).  Rendering-only fields
(`options`, `placeholder_*`, `proof_hint_*`, `children`) are omitted: none of
the embedded logic (visibility, defaults, persistence, prompts, export) reads
them; `group` children are rendered recursively but, per the data model, store
their answers under their own ids and never carry `when` predicates in the
catalog. -/
structure FormQuestion where
  id : String
  type : QType
  question_fa : String := ""
  question_en : String := ""
  question_uk : String := ""
  description_fa : Option String := none
  description_en : Option String := none
  description_uk : Option String := none
  allowProof : Bool := false
  starEnabled : Bool := false
  bookEnabled : Bool := false
  when : Option (List (String × String)) := none
deriving DecidableEq, Repr

/-- Locale dispatch `question_${lang}` as used by `generatePrompt`. -/
def FormQuestion.questionText (q : FormQuestion) : Lang → String
  | .fa => q.question_fa
  | .en => q.question_en
  | .uk => q.question_uk

/-- Locale dispatch `description_${lang}` as used by `generatePrompt`
(`?? ""` applied at the use site). -/
def FormQuestion.descriptionText (q : FormQuestion) : Lang → Option String
  | .fa => q.description_fa
  | .en => q.description_en
  | .uk => q.description_uk

/-- The id-keyed answer record of `App` (`answers : Record<string, any>`),
modelled as an association list; an id absent from the list is `undefined`. -/
abbrev AnswerMap := List (String × AnsValue)

/-- JavaScript property read `answers[k]` on an id-keyed record. -/
def aget (answers : AnswerMap) (k : String) : Option AnsValue :=
  (List.find? (fun p => p.1 == k) answers).map (fun p => p.2)

/-- `visibleByWhen` (src/unnamed/part_001, lines 538–541):

```ts
function visibleByWhen(q, answers) {
  if (!q.when) return true;
  return Object.entries(q.when).every(([dep, val]) =>
    String(answers[dep]) === String(val));
}
```

`val` is typed `string`, so `String(val) = val`. -/
def visibleByWhen (q : FormQuestion) (answers : AnswerMap) : Bool :=
  match q.when with
  | none => true
  | some conds => conds.all (fun p => jstringOpt (aget answers p.1) == p.2)

/-- An attached file; only its name is ever exported.  `content` stands for
the byte payload that must never leak into an export. -/
structure FileRef where
  name : String
  content : String
deriving DecidableEq, Repr

/-- One per-question answer record of `FormFlow` (src/index.tsx,
`makeDefault` shape): `{questionId, rating, length, files, value, aiResponse}`.
`aiResponse` is kept abstract as an optional opaque payload tag since only its
presence (`null` vs a parsed response) matters to the verified logic. -/
structure AnswerRec where
  questionId : String
  rating : Nat
  length : Nat
  files : List FileRef
  value : AnsValue
  aiResponse : Option String
deriving DecidableEq, Repr

/-- JavaScript strict equality `x === v` between an answer value and a string
`v`: true exactly when `x` is the string `v`; an array or object is never
strictly equal to a string. -/
def strictEqStr (x : AnsValue) (v : String) : Bool :=
  match x with
  | .str t => t == v
  | _ => false

/-- `FormFlow.visible` (src/index.tsx, lines 383–390):

```ts
moduleContent.questions.filter((q) => {
  if (!q.when) return true;
  const [k, v] = Object.entries(q.when)[0];
  const a = answers.find((x) => x.questionId === k);
  return a?.value === v;
});
```

Only the first `when` entry is consulted; `a?.value === v` is `false` when no
record for `k` exists (`undefined === v`).  An empty `when` object would make
the destructuring of `Object.entries(q.when)[0]` throw in JavaScript; no
catalog question has one, and the model maps that unreachable case to
exclusion. -/
def FormFlow.visible (questions : List FormQuestion) (answers : List AnswerRec) :
    List FormQuestion :=
  questions.filter (fun q =>
    match q.when with
    | none => true
    | some [] => false
    | some (p :: _) =>
        match answers.find? (fun x => x.questionId == p.1) with
        | some a => strictEqStr a.value p.2
        | none => false)

/-- The per-type default value of `FormFlow.makeDefault`
(`q.type === "multi-select" ? [] : q.type === "group" ? {} : ""`). -/
def defaultValueFor (t : QType) : AnsValue :=
  match t with
  | .multiSelect => .strList []
  | .group => .strMap []
  | _ => .str ""

/-- `makeDefault` (src/index.tsx, lines 350–358), the per-question default
answer record:

```ts
moduleContent.questions.map((q) => ({
  questionId: q.id,
  rating: q.starEnabled ? 1 : 0,
  length: 1,
  files: [],
  value: q.type === "multi-select" ? [] : q.type === "group" ? {} : "",
  aiResponse: null,
}));
```
(the mapped body, for a single question). -/
def FormFlow.makeDefault (q : FormQuestion) : AnswerRec :=
  { questionId := q.id
    rating := if q.starEnabled then 1 else 0
    length := 1
    files := []
    value := defaultValueFor q.type
    aiResponse := none }

/-- One persisted entry `{questionId, rating, length, value}` of the durable
store (src/index.tsx, line 377). -/
structure PersistEntry where
  questionId : String
  rating : Nat
  length : Nat
  value : AnsValue
deriving DecidableEq, Repr

/-- The projection written to localStorage on every store mutation
(src/index.tsx, lines 376–381):
`answers.map(({questionId, rating, length, value}) => ({questionId, rating, length, value}))`. -/
def FormFlow.persistProj (answers : List AnswerRec) : List PersistEntry :=
  answers.map (fun a =>
    { questionId := a.questionId, rating := a.rating, length := a.length, value := a.value })

/-- The localStorage key `form-progress-<moduleId>` (src/index.tsx,
lines 361 and 379). -/
def FormFlow.storageKey (moduleId : String) : String :=
  "form-progress-" ++ moduleId

/-- The load-time reconciliation of the `useState` initializer
(src/index.tsx, lines 360–371) once a persisted blob has parsed to a list of
entries:

```ts
const def = makeDefault();
return def.map((d) => {
  const s = parsed.find((x) => x.questionId === d.questionId);
  return s ? { ...d, rating: s.rating, length: s.length, value: s.value } : d;
});
```
-/
def FormFlow.loadAnswers (questions : List FormQuestion) (parsed : List PersistEntry) :
    List AnswerRec :=
  (questions.map FormFlow.makeDefault).map (fun d =>
    match parsed.find? (fun x => x.questionId == d.questionId) with
    | some s => { d with rating := s.rating, length := s.length, value := s.value }
    | none => d)

/-- The `useState` initializer when no blob is stored or parsing throws
(src/index.tsx, lines 361–362 and 369–370): plain per-question defaults. -/
def FormFlow.initStore (questions : List FormQuestion) : List AnswerRec :=
  questions.map FormFlow.makeDefault

/-- The session state of `App` (src/unnamed/part_001) that is cleared by the
reset effect: answers, file and proof attachments, star and book levels, the
review and the error banner. -/
structure AppSession where
  answers : AnswerMap
  files : List (String × Option FileRef)
  proofs : List (String × Option FileRef)
  stars : List (String × Nat)
  books : List (String × Nat)
  review : Option (List (String × String))
  error : Option String

/-- The reset effect of `App` (src/unnamed/part_001, lines 575–584), run on
every module or locale switch and at mount: every piece of session state
becomes empty. -/
def App.resetSession : AppSession :=
  { answers := []
    files := []
    proofs := []
    stars := []
    books := []
    review := none
    error := none }

/-- Effective star level read by `App` (`stars[q.id] ?? 3`,
src/unnamed/part_001 lines 598 and 793). -/
def App.starLevel (stars : List (String × Nat)) (qid : String) : Nat :=
  match stars.find? (fun p => p.1 == qid) with
  | some p => p.2
  | none => 3

/-- Effective book level read by `App` (`books[q.id] ?? 2`,
src/unnamed/part_001 lines 599 and 794). -/
def App.bookLevel (books : List (String × Nat)) (qid : String) : Nat :=
  match books.find? (fun p => p.1 == qid) with
  | some p => p.2
  | none => 2

/-- A JSON document value: review records, raw external responses and export
documents.  `undef` models a JavaScript `undefined` appearing as a property
value. -/
inductive JValue where
  | null
  | undef
  | num (n : Int)
  | str (s : String)
  | arr (xs : List JValue)
  | obj (fields : List (String × JValue))

/-- A JSON object, as an ordered field list (JavaScript objects cannot repeat
keys; lists built by the embedding keep that invariant). -/
abbrev JObj := List (String × JValue)

/-- JavaScript property read `o[k]`: `none` when the key is absent. -/
def oget (o : JObj) (k : String) : Option JValue :=
  (List.find? (fun p => p.1 == k) o).map (fun p => p.2)

/-- JavaScript object spread `{...a, ...b}`: the keys of `b` override those of
`a`; keys of `a` not present in `b` keep their values. -/
def ospread (a b : JObj) : JObj :=
  a.filter (fun p => (oget b p.1).isNone) ++ b

/-- Embedding of an answer value into a JSON document (used by `exportJSON`
and `buildPrompt`, which serialize the `answers` record as JSON). -/
def AnsValue.toJ : AnsValue → JValue
  | .str s => .str s
  | .num n => .num n
  | .strList xs => .arr (xs.map JValue.str)
  | .strMap m => .obj (m.map (fun p => (p.1, JValue.str p.2)))

/-- `safeDefaultReview` (src/unnamed/part_001, lines 694–733): the fully
populated default `FormCheckerResponse`, a pure function of the current
locale, module key and answers record.  Fields appear in source order; the
`improvements` and `per_question_scores` fields are built from
`Object.keys(answers)`. -/
def App.safeDefaultReview (lang : Lang) (moduleKey : String) (answers : AnswerMap) : JObj :=
  [ ("language", .str lang.key)
  , ("form_type", .str moduleKey)
  , ("overall_stars", .num 4)
  , ("scores", .obj
      [ ("completeness", .num 4)
      , ("consistency", .num 4)
      , ("evidence_linkage", .num 3)
      , ("relevance", .num 4)
      , ("tone_clarity", .num 4)
      , ("risk_flags", .num 2) ])
  , ("translation_summary", .str
      (match lang with
       | .fa => "خلاصه اولیه براساس پاسخ‌های شما تولید شد."
       | .uk => "Попередній підсумок згенеровано на основі ваших відповідей."
       | .en => "A preliminary summary was generated from your answers."))
  , ("key_findings", .arr
      [ .str "Answers provided for most key areas."
      , .str "Consider linking proofs explicitly to claims."
      , .str "Tone is generally clear; add concrete daily examples." ])
  , ("missing_evidence", .arr
      [ .str "Recent medical letter", .str "Proof of address (if applicable)" ])
  , ("improvements", .arr (answers.map (fun p => JValue.obj
      [ ("section_id", .str p.1)
      , ("before_" ++ lang.key, .str p.2.jstring)
      , ("after_" ++ lang.key, .str "")
      , ("rationale_" ++ lang.key, .str "") ])))
  , ("per_question_scores", .obj (answers.map (fun p => (p.1, JValue.num 4))))
  , ("next_steps_fa", .arr [ .str "بازبینی پاسخ‌ها", .str "افزودن مدارک", .str "ارسال فرم" ])
  , ("next_steps_en", .arr [ .str "Review answers", .str "Attach evidence", .str "Submit the form" ])
  , ("next_steps_uk", .arr [ .str "Перевірити відповіді", .str "Додати докази", .str "Подати форму" ])
  , ("disclaimer_fa", .str "این راهنما جایگزین مشاوره تخصصی نیست.")
  , ("disclaimer_en", .str "This guidance is not a substitute for professional advice.")
  , ("disclaimer_uk", .str "Це керівництво не є заміною професійної консультації.") ]

/-- The field names required of a `FormCheckerResponse` (interface in
src/unnamed/part_001, lines 55–78; `per_question_scores` is optional there
but always produced by `safeDefaultReview`). -/
def reviewFields : List String :=
  [ "language", "form_type", "overall_stars", "scores", "translation_summary"
  , "key_findings", "missing_evidence", "improvements", "per_question_scores"
  , "next_steps_fa", "next_steps_en", "next_steps_uk"
  , "disclaimer_fa", "disclaimer_en", "disclaimer_uk" ]

/-- The six metric names of the `scores` breakdown. -/
def scoreFields : List String :=
  [ "completeness", "consistency", "evidence_linkage", "relevance"
  , "tone_clarity", "risk_flags" ]

/-- A present, defined field: the key exists and its value is not
`undefined`. -/
def fieldPopulated (o : JObj) (k : String) : Bool :=
  match oget o k with
  | some .undef => false
  | some _ => true
  | none => false

/-- An `improvements` entry is populated for locale `lang` when it carries
`section_id` and the three locale-specific texts. -/
def improvementPopulated (lang : Lang) (v : JValue) : Bool :=
  match v with
  | .obj e =>
      fieldPopulated e "section_id" && fieldPopulated e ("before_" ++ lang.key) &&
      fieldPopulated e ("after_" ++ lang.key) && fieldPopulated e ("rationale_" ++ lang.key)
  | _ => false

/-- A review record with every field populated: all required top-level fields
present and defined, all six score metrics present in the score breakdown,
and every improvements entry populated for the record locale. -/
def reviewComplete (lang : Lang) (r : JObj) : Bool :=
  reviewFields.all (fieldPopulated r) &&
  (match oget r "scores" with
   | some (.obj s) => scoreFields.all (fieldPopulated s)
   | _ => false) &&
  (match oget r "improvements" with
   | some (.arr xs) => xs.all (improvementPopulated lang)
   | _ => false)

/-- JavaScript `String.prototype.trim`: strip leading and trailing
whitespace. -/
def jsTrim (s : String) : String :=
  String.mk (((s.data.dropWhile Char.isWhitespace).reverse.dropWhile Char.isWhitespace).reverse)

/-- Outcome of the optional backend call in `buildAIReview`
(src/unnamed/part_001, lines 746–764): no `VITE_API_URL` configured, a
network error (caught), a non-ok HTTP status (logged, skipped), or an ok
response whose `res.json()` either throws (`none`, caught by the same
`catch`) or yields a parsed object. -/
inductive BackendOutcome where
  | noUrl
  | netErr
  | notOk
  | okJson (parsed : Option JObj)

/-- Outcome of the Gemini path in `buildAIReview` (src/unnamed/part_001,
lines 766–787): `ensureGemini` returned `null` (no key or import failure),
the generation call threw, or it produced a text payload. -/
inductive GeminiOutcome where
  | unavailable
  | genErr
  | text (t : String)

/-- `buildAIReview` (src/unnamed/part_001, lines 735–790), as a total
function of the session state and the outcomes of its two external calls.
`parse` stands for `JSON.parse` (`none` = throws) and `extract` for the
markdown-stripping regex match (`text.match(/\x7b[\s\S]*\x7d$/m)`, falling
back to the whole text).  The second component records whether the soft
warning `setError("AI review fallback used (Gemini parsing failed).")` was
raised; every other failure is only logged.  The function returns on every
outcome — no exception escapes, mirroring the `try`/`catch` structure of the
source. -/
def App.buildAIReview (lang : Lang) (moduleKey : String) (answers : AnswerMap)
    (b : BackendOutcome) (g : GeminiOutcome)
    (parse : String → Option JObj) (extract : String → String) : JObj × Bool :=
  match b with
  | .okJson (some data) => (ospread (App.safeDefaultReview lang moduleKey answers) data, false)
  | _ =>
      match g with
      | .unavailable => (App.safeDefaultReview lang moduleKey answers, false)
      | .genErr => (App.safeDefaultReview lang moduleKey answers, true)
      | .text t =>
          if jsTrim t = "" then (App.safeDefaultReview lang moduleKey answers, false)
          else
            match parse (extract (jsTrim t)) with
            | some parsed =>
                (ospread (App.safeDefaultReview lang moduleKey answers) parsed, false)
            | none => (App.safeDefaultReview lang moduleKey answers, true)

/-- The `v?.name || null` projection applied to each attached file by
`exportJSON`: `null` for a missing file, otherwise the file name (an empty
name is falsy and also maps to `null`). -/
def fileNameOrNull (f : Option FileRef) : JValue :=
  match f with
  | none => .null
  | some file => if file.name = "" then .null else .str file.name

/-- The structured export document assembled by `exportJSON`
(src/unnamed/part_001, lines 978–990) before `JSON.stringify`:

```ts
const data = {
  language: lang,
  module: moduleKey,
  answers,
  files: Object.fromEntries(Object.entries(files).map(([k, v]) => [k, v?.name || null])),
  proofs: Object.fromEntries(Object.entries(proofs).map(([k, v]) => [k, v?.name || null])),
  stars,
  books,
  review
};
```
-/
def App.exportJSONDoc (lang : Lang) (moduleKey : String) (answers : AnswerMap)
    (files proofs : List (String × Option FileRef)) (stars books : List (String × Nat))
    (review : Option JObj) : JObj :=
  [ ("language", .str lang.key)
  , ("module", .str moduleKey)
  , ("answers", .obj (answers.map (fun p => (p.1, p.2.toJ))))
  , ("files", .obj (files.map (fun p => (p.1, fileNameOrNull p.2))))
  , ("proofs", .obj (proofs.map (fun p => (p.1, fileNameOrNull p.2))))
  , ("stars", .obj (stars.map (fun p => (p.1, JValue.num p.2))))
  , ("books", .obj (books.map (fun p => (p.1, JValue.num p.2))))
  , ("review", match review with | none => .null | some r => .obj r) ]

/-- The emptiness test of the generation effect (src/index.tsx, lines
460–463):

```ts
const isEmpty =
  !a.value ||
  (Array.isArray(a.value) && a.value.length === 0) ||
  (typeof a.value === "object" && Object.keys(a.value).length === 0);
```

`!v` is true for the empty string and for the number `0`; an empty array and
an object without keys are caught by the two explicit clauses. -/
def isEmptyVal (v : AnsValue) : Bool :=
  match v with
  | .str s => s = ""
  | .num n => n = 0
  | .strList xs => xs.isEmpty
  | .strMap m => m.isEmpty

/-- The skip guard of the generation effect (src/index.tsx, line 464):
`const mustSkip = (q.starEnabled && a.rating === 0) || (!q.starEnabled && isEmpty);`. -/
def mustSkip (q : FormQuestion) (a : AnswerRec) : Bool :=
  (q.starEnabled && a.rating == 0) || (!q.starEnabled && isEmptyVal a.value)

/-- The debounce delay of the generation effect (src/index.tsx, line 493):
`window.setTimeout(..., 600)`. -/
def debounceWindow : Nat := 600

/-- The external generation requests issued by a sequence of runs of the
debounced effect (src/index.tsx, lines 458–497), each run given as the time
it executes and the answer snapshot it closes over, in increasing time order,
with no further run afterwards.

Each run first has the cleanup of the previous run clear any pending timer;
then, if the skip guard holds, it stores no timer (and clears the stored
guidance), otherwise it schedules a timer `debounceWindow` ms ahead capturing
the current snapshot.  A pending timer therefore fires exactly when no later
run occurs strictly before its fire time, and the fired request carries the
snapshot captured when it was scheduled. -/
def FormFlow.genRequests (q : FormQuestion) (window : Nat) :
    List (Nat × AnswerRec) → List (Nat × AnswerRec)
  | [] => []
  | (t, a) :: rest =>
      if mustSkip q a then FormFlow.genRequests q window rest
      else
        match rest with
        | [] => [(t + window, a)]
        | (t2, _) :: _ =>
            if t + window ≤ t2 then (t + window, a) :: FormFlow.genRequests q window rest
            else FormFlow.genRequests q window rest

/-- The synchronous component state touched by one run of the generation
effect: the pending timer and the stored guidance (`aiResponse`). -/
structure GenState where
  pending : Option (Nat × AnswerRec)
  aiResponse : Option String
deriving DecidableEq, Repr

/-- The synchronous effect of a sequence of runs of the debounced generation
effect on `GenState`: a skipped run clears both the timer and the stored
guidance (`setProp("aiResponse", null)` then `return`); a non-skipped run
replaces the pending timer and leaves the guidance untouched until the timer
fires. -/
def FormFlow.runGenEffects (q : FormQuestion) (window : Nat)
    (runs : List (Nat × AnswerRec)) (s : GenState) : GenState :=
  runs.foldl (fun st p =>
    if mustSkip q p.2 then { pending := none, aiResponse := none }
    else { pending := some (p.1 + window, p.2), aiResponse := st.aiResponse }) s

/-- `impactMap` (src/index.tsx, lines 405–412); a rating outside the table
interpolates as `undefined`. -/
def impactMap (r : Nat) : String :=
  if r = 1 then "very low impact"
  else if r = 2 then "low impact"
  else if r = 3 then "neutral impact"
  else if r = 4 then "somewhat impactful"
  else if r = 5 then "high impact"
  else if r = 6 then "maximum impact"
  else "undefined"

/-- `lengthMap` (src/index.tsx, lines 413–418); a length outside the table
interpolates as `undefined`. -/
def lengthMap (l : Nat) : String :=
  if l = 1 then "1-2 sentences"
  else if l = 2 then "3-4 sentences"
  else if l = 3 then "a short paragraph"
  else if l = 4 then "a long paragraph"
  else "undefined"

/-- `langMeta.name` (src/index.tsx, lines 419–424). -/
def langName : Lang → String
  | .fa => "Farsi (RTL)"
  | .uk => "Ukrainian"
  | .en => "English"

/-- `langMeta.you` (src/index.tsx, lines 419–424). -/
def langYou : Lang → String
  | .fa => "Iranians"
  | .uk => "Ukrainians"
  | .en => "users"

/-- One character of `JSON.stringify` string escaping (quotes, backslashes
and common control characters). -/
def escJsonChar (c : Char) : String :=
  if c = '"' then "\\\""
  else if c = '\\' then "\\\\"
  else if c = '\n' then "\\n"
  else if c = '\r' then "\\r"
  else if c = '\t' then "\\t"
  else String.singleton c

/-- `JSON.stringify` of a string. -/
def jsonQuote (s : String) : String :=
  "\"" ++ String.join (s.data.map escJsonChar) ++ "\""

/-- `JSON.stringify(a.value)` as interpolated by `generatePrompt`. -/
def jsonStringifyA : AnsValue → String
  | .str s => jsonQuote s
  | .num n => toString n
  | .strList xs => "[" ++ String.intercalate "," (xs.map jsonQuote) ++ "]"
  | .strMap m =>
      "\x7b" ++
        String.intercalate "," (m.map (fun p => jsonQuote p.1 ++ ":" ++ jsonQuote p.2)) ++
      "\x7d"

/-- The module ids dispatched to the generic `multi` template by
`generatePrompt` (src/index.tsx, line 450). -/
def multiModules : List String :=
  [ "uc", "immigration", "carers_allowance", "nhs_forms", "student_finance"
  , "council_tax", "blue_badge", "dvla_forms", "hmrc_forms" ]

/-- `generatePrompt` (src/index.tsx, lines 404–454).  The source reads
`a.rating`, `a.length` and `a.value` from the answer record it is called
with.  `pip` and unknown modules use the PIP template, the ids in
`multiModules` the generic evidence/next-steps template. -/
def FormFlow.generatePrompt (lang : Lang) (moduleId : String)
    (q : FormQuestion) (a : AnswerRec) : String :=
  let lk := lang.key
  let base :=
    "You are an expert assistant for UK government forms helping " ++ langYou lang ++ ".\n" ++
    "Return a single valid JSON with keys \"answer_" ++ lk ++ "\" and \"explanation_" ++ lk ++ "\".\n" ++
    "- \"answer_" ++ lk ++ "\": clear, professional " ++ langName lang ++ ".\n" ++
    "- \"explanation_" ++ lk ++ "\": short rationale referencing the user\x27s input."
  let pipPrompt :=
    base ++ "\n" ++
    "Generating " ++ langName lang ++ " text for a PIP application.\n" ++
    "Question: \"" ++ q.questionText lang ++ "\"\n" ++
    "Description: \"" ++ (q.descriptionText lang).getD "" ++ "\"\n" ++
    "Impact: " ++ toString a.rating ++ "/6 (" ++ impactMap a.rating ++ ")\n" ++
    "Length: " ++ toString a.length ++ "/4 (" ++ lengthMap a.length ++ ")\n" ++
    "User input: " ++ jsonStringifyA a.value ++ "\n" ++
    "Return ONLY JSON."
  let multi :=
    base ++ "\n" ++
    "Provide \"answer_" ++ lk ++ "\", \"evidence_checklist_" ++ lk ++ "\", \"next_steps_" ++
      lk ++ "\", \"explanation_" ++ lk ++ "\".\n" ++
    "Question: \"" ++ q.questionText lang ++ "\"\n" ++
    "User input: " ++ jsonStringifyA a.value ++ "\n" ++
    "Return ONLY JSON."
  if moduleId = "pip" then pipPrompt
  else if multiModules.contains moduleId then multi
  else pipPrompt

/-! ## Concrete catalog values and test inputs

`uc_claim_type`, `hmrc_flow`, `sa_utr` are catalog questions transcribed from
src/unnamed/part_001 (modules `uc` and `hmrc_forms`); `pip_preparing_food` is
the starter question of src/unnamed/part_000 (`indexes.ts`).  The `Fix`
namespace holds further concrete inputs used to instantiate universally
quantified claims; the visibility resolvers and `makeDefault` are total
functions of (module, answers), so any well-formed question/answer pair is in
their specified domain. -/

def uc_claim_type : FormQuestion :=
  { id := "claim_type"
    type := .singleSelect
    question_fa := "نوع درخواست شما چیست؟"
    question_en := "What is the type of your claim?"
    question_uk := "Який тип вашої заявки?" }

def hmrc_flow : FormQuestion :=
  { id := "hmrc_flow"
    type := .singleSelect
    question_fa := "کدام مورد را نیاز دارید؟"
    question_en := "Which do you need?"
    question_uk := "Що вам потрібно?" }

def sa_utr : FormQuestion :=
  { id := "sa_utr"
    type := .shortText
    question_fa := "آیا UTR دارید؟"
    question_en := "Do you have a UTR?"
    question_uk := "У вас є UTR?"
    allowProof := true
    when := some [("hmrc_flow", "self_assessment")] }

def pip_preparing_food : FormQuestion :=
  { id := "preparing_food"
    type := .longText
    question_fa := "۱. آماده کردن غذا"
    question_en := "1. Preparing food"
    question_uk := "1. Приготування їжі"
    description_en := some "Describe difficulties with peeling/chopping, using cooker/microwave, and safety."
    allowProof := true
    starEnabled := true
    bookEnabled := true }

namespace Fix

/-- A multi-select question another question depends on (hypothetical module;
`multi-select` is a catalog question type and `["dogs"]` is a value the
multi-select checkbox handler stores). -/
def petTypes : FormQuestion := { id := "pet_types", type := .multiSelect }

/-- A question whose visibility depends on `pet_types` having value
`"dogs"`. -/
def dogDetails : FormQuestion :=
  { id := "dog_details", type := .longText, when := some [("pet_types", "dogs")] }

/-- The two-question module made of the above. -/
def petModule : List FormQuestion := [petTypes, dogDetails]

/-- A `FormFlow` store for `petModule` in which the multi-select answer is
`["dogs"]` (the state after ticking the `dogs` checkbox). -/
def petAnswers : List AnswerRec :=
  [ { FormFlow.makeDefault petTypes with value := .strList ["dogs"] }
  , FormFlow.makeDefault dogDetails ]

/-- A question whose predicate references a question id that exists nowhere,
with required value `"undefined"`. -/
def ghostDependent : FormQuestion :=
  { id := "ghost_dep", type := .shortText, when := some [("no_such_question", "undefined")] }

/-- An answer record for `claim_type` holding the non-empty value `"new"`. -/
def editNew : AnswerRec := { FormFlow.makeDefault uc_claim_type with value := .str "new" }

/-- An answer record for `claim_type` holding the non-empty value
`"manage"`. -/
def editManage : AnswerRec := { FormFlow.makeDefault uc_claim_type with value := .str "manage" }

/-- An answer record for `claim_type` holding the empty string (the state
after the user clears the input). -/
def editEmpty : AnswerRec := FormFlow.makeDefault uc_claim_type

end Fix

/-! ## Helper lemmas -/

theorem oget_nil (k : String) : oget [] k = none := rfl

theorem oget_cons (x : String × JValue) (t : JObj) (k : String) :
    oget (x :: t) k = if x.1 == k then some x.2 else oget t k := by
  simp only [oget, List.find?_cons]
  by_cases h : x.1 == k <;> simp [h]

theorem oget_append (l₁ l₂ : JObj) (k : String) :
    oget (l₁ ++ l₂) k = (oget l₁ k).or (oget l₂ k) := by
  unfold oget
  rw [List.find?_append]
  cases List.find? (fun p => p.1 == k) l₁ <;> simp

theorem oget_filter_spread (a b : JObj) (k : String) :
    oget (a.filter (fun p => (oget b p.1).isNone)) k =
      if (oget b k).isNone then oget a k else none := by
  induction a with
  | nil => simp [oget_nil]
  | cons x t ih =>
      by_cases hx : x.1 == k
      · have hxk : x.1 = k := by simpa using hx
        by_cases hb : (oget b x.1).isNone
        · rw [List.filter_cons_of_pos (by simpa using hb), oget_cons, oget_cons,
            if_pos hx, if_pos hx, if_pos (hxk ▸ hb)]
        · rw [List.filter_cons_of_neg (by simpa using hb), ih, oget_cons,
            if_neg (hxk ▸ hb), if_neg (hxk ▸ hb)]
      · by_cases hb : (oget b x.1).isNone
        · rw [List.filter_cons_of_pos (by simpa using hb), oget_cons, if_neg hx,
            oget_cons, if_neg hx, ih]
        · rw [List.filter_cons_of_neg (by simpa using hb), ih, oget_cons, if_neg hx]

/-- The characterizing property of JavaScript object spread: a key present in
`b` takes the value from `b`, any other key keeps the value from `a`. -/
theorem oget_ospread (a b : JObj) (k : String) :
    oget (ospread a b) k = (oget b k).or (oget a k) := by
  unfold ospread
  rw [oget_append, oget_filter_spread]
  cases h : oget b k <;> simp [h]

theorem strictEqStr_iff (x : AnsValue) (v : String) :
    strictEqStr x v = true ↔ x = .str v := by
  cases x <;> simp [strictEqStr]

/-- `find?` is unchanged by a filter that keeps every element the search
predicate accepts. -/
theorem find?_filter_eq_of_imp {α : Type _} (l : List α) (p f : α → Bool)
    (h : ∀ x, p x = true → f x = true) :
    (l.filter f).find? p = l.find? p := by
  induction l with
  | nil => rfl
  | cons x t ih =>
      by_cases hf : f x
      · rw [List.filter_cons_of_pos hf]
        by_cases hp : p x
        · rw [List.find?_cons_of_pos _ hp, List.find?_cons_of_pos _ hp]
        · rw [List.find?_cons_of_neg _ hp, List.find?_cons_of_neg _ hp, ih]
      · have hp : ¬ p x = true := fun hpx => hf (h x hpx)
        rw [List.filter_cons_of_neg hf, List.find?_cons_of_neg _ hp, ih]

theorem aget_nil (k : String) : aget [] k = none := rfl

theorem aget_cons (x : String × AnsValue) (t : AnswerMap) (k : String) :
    aget (x :: t) k = if x.1 == k then some x.2 else aget t k := by
  simp only [aget, List.find?_cons]
  by_cases h : x.1 == k <;> simp [h]

/-- Reading a key through a value-wise map of an id-keyed record. -/
theorem oget_map_toJ (m : AnswerMap) (k : String) :
    oget (m.map (fun p => (p.1, p.2.toJ))) k = (aget m k).map AnsValue.toJ := by
  induction m with
  | nil => rfl
  | cons x t ih =>
      rw [List.map_cons, oget_cons, aget_cons]
      by_cases h : x.1 == k
      · simp [h]
      · simp [h, ih]

/-! ## Claims -/

/-- C1, counterexample.  The claim states that a question with predicate
`(k, v)` is in the visible list iff `String(answers[k].value) === String(v)`.
In `FormFlow.visible` the comparison is the strict `a?.value === v` with no
stringification: in the two-question module `petModule`, the stored
multi-select answer `["dogs"]` stringifies equal to the required value
`"dogs"` (`String(["dogs"]) === "dogs"`), yet `dog_details` is not in the
visible list, because a JavaScript array is never strictly equal to a
string. -/
theorem claim_C1_cex :
    AnsValue.jstring (AnsValue.strList ["dogs"]) = AnsValue.jstring (AnsValue.str "dogs")
    ∧ Fix.dogDetails ∉ FormFlow.visible Fix.petModule Fix.petAnswers := by
  exact ⟨rfl, by decide⟩

/-- C1 (amended): the two visibility resolvers are characterized exactly.
Under `visibleByWhen` a question with single predicate `(k, v)` is visible
iff `String(answers[k])` equals `v` (an unset `k` stringifies to
`"undefined"`, so the question is hidden when `k` has no answer unless `v` is
the string `"undefined"`).  Under `FormFlow.visible` the question is in the
visible list iff a record for `k` exists and its value is strictly equal
(`===`) to the string `v`; for string-valued answers this coincides with the
stringified comparison, and an absent record always excludes. -/
theorem claim_C1 :
    (∀ (q : FormQuestion) (answers : AnswerMap) (k v : String),
        q.when = some [(k, v)] →
        (visibleByWhen q answers = true ↔ jstringOpt (aget answers k) = v))
    ∧ (∀ (qs : List FormQuestion) (answers : List AnswerRec) (q : FormQuestion) (k v : String),
        q.when = some [(k, v)] → q ∈ qs →
        (q ∈ FormFlow.visible qs answers ↔
          ∃ a, answers.find? (fun x => x.questionId == k) = some a ∧ a.value = .str v)) := by
  constructor
  · intro q answers k v hw
    simp [visibleByWhen, hw]
  · intro qs answers q k v hw hmem
    unfold FormFlow.visible
    rw [List.mem_filter]
    cases hf : answers.find? (fun x => x.questionId == k) with
    | none => simp [hmem, hw, hf]
    | some a => simp [hmem, hw, hf, strictEqStr_iff]

/-- C1 witness: in the `hmrc_forms` module, once `hmrc_flow` is answered
`"self_assessment"`, the dependent question `sa_utr` is visible under both
resolvers. -/
theorem claim_C1_witness :
    visibleByWhen sa_utr [("hmrc_flow", AnsValue.str "self_assessment")] = true
    ∧ sa_utr ∈ FormFlow.visible [hmrc_flow, sa_utr]
        [ { FormFlow.makeDefault hmrc_flow with value := .str "self_assessment" }
        , FormFlow.makeDefault sa_utr ] := by
  constructor
  · exact (claim_C1.1 sa_utr _ "hmrc_flow" "self_assessment" rfl).mpr rfl
  · exact (claim_C1.2 _ _ sa_utr "hmrc_flow" "self_assessment" rfl
      (List.mem_cons_of_mem _ (List.mem_cons_self _ _))).mpr ⟨_, rfl, rfl⟩

/-- C9, counterexample.  The claim states that a predicate whose
`dependsOnQuestionId` refers to no existing question is never satisfied.  In
`visibleByWhen`, an unanswered dependency reads as `undefined` and
`String(undefined)` is the string `"undefined"`: the question `ghostDependent`
with predicate `("no_such_question", "undefined")` is visible in the empty
answer state (`String(answers["no_such_question"]) === "undefined"` holds),
although no question with that id exists anywhere. -/
theorem claim_C9_cex : visibleByWhen Fix.ghostDependent [] = true := rfl

/-- C9 (amended): no error is raised for a predicate referencing an unknown
question id (both resolvers are total functions).  Under `FormFlow.visible`
such a question is never in the visible list.  Under `visibleByWhen` it is
never satisfied provided the required value is not the string
`"undefined"` — the stringification of an absent answer. -/
theorem claim_C9 :
    (∀ (qs : List FormQuestion) (answers : List AnswerRec) (q : FormQuestion) (k v : String),
        q.when = some [(k, v)] →
        (∀ a ∈ answers, a.questionId ≠ k) →
        q ∉ FormFlow.visible qs answers)
    ∧ (∀ (q : FormQuestion) (answers : AnswerMap) (k v : String),
        q.when = some [(k, v)] → aget answers k = none → v ≠ "undefined" →
        visibleByWhen q answers = false) := by
  constructor
  · intro qs answers q k v hw h hmem
    rw [FormFlow.visible, List.mem_filter, hw] at hmem
    have hf : answers.find? (fun x => x.questionId == k) = none :=
      List.find?_eq_none.mpr (fun a ha => by simpa using h a ha)
    simp [hf] at hmem
  · intro q answers k v hw hk hv
    simp [visibleByWhen, hw, jstringOpt, hk, Ne.symm hv]

/-- C9 witness: the `sa_utr` predicate on an unknown id is unsatisfied in
both resolvers when nothing is answered. -/
theorem claim_C9_witness :
    sa_utr ∉ FormFlow.visible [sa_utr] []
    ∧ visibleByWhen sa_utr [] = false := by
  constructor
  · exact claim_C9.1 [sa_utr] [] sa_utr "hmrc_flow" "self_assessment" rfl
      (fun a ha => absurd ha (List.not_mem_nil a))
  · exact claim_C9.2 sa_utr [] "hmrc_flow" "self_assessment" rfl rfl (by decide)

/-- C2: `buildAIReview` merges a raw external response over the default
review by JavaScript object spread (`{ ...safeDefaultReview(), ...data }`):
every top-level key present in the raw response takes the raw value, every
absent key keeps the default, and a nested object supplied in the raw
response (such as the `scores` breakdown, the spec's score-breakdown object)
replaces the default nested object wholesale.  In particular, merging a raw
response containing only an overall rating of 5 (`overall_stars`, the spec's
`overallRating` field) yields a record whose overall rating is 5 and whose
every other field is the default's. -/
theorem claim_C2 (lang : Lang) (mk : String) (answers : AnswerMap) :
    (∀ (raw : JObj) (g : GeminiOutcome) (parse : String → Option JObj)
        (extract : String → String),
        App.buildAIReview lang mk answers (.okJson (some raw)) g parse extract
          = (ospread (App.safeDefaultReview lang mk answers) raw, false))
    ∧ (∀ (raw : JObj) (k : String),
        oget (ospread (App.safeDefaultReview lang mk answers) raw) k
          = (oget raw k).or (oget (App.safeDefaultReview lang mk answers) k))
    ∧ (∀ (raw : JObj) (sb : JObj), oget raw "scores" = some (.obj sb) →
        oget (ospread (App.safeDefaultReview lang mk answers) raw) "scores"
          = some (.obj sb))
    ∧ oget (ospread (App.safeDefaultReview lang mk answers) [("overall_stars", .num 5)])
        "overall_stars" = some (.num 5)
    ∧ (∀ k, k ≠ "overall_stars" →
        oget (ospread (App.safeDefaultReview lang mk answers) [("overall_stars", .num 5)]) k
          = oget (App.safeDefaultReview lang mk answers) k) := by
  refine ⟨fun raw g parse extract => rfl, fun raw k => oget_ospread _ raw k, ?_, ?_, ?_⟩
  · intro raw sb h
    rw [oget_ospread, h]
    rfl
  · rw [oget_ospread]
    rfl
  · intro k hk
    rw [oget_ospread, oget_cons]
    have : ("overall_stars" == k) = false := by
      simpa using fun h => hk h.symm
    rw [this]
    rfl

/-- C2 witness: a partial `scores` object replaces the default breakdown
wholesale, and merging `overall_stars: 5` leaves `language` at its default. -/
theorem claim_C2_witness :
    oget (ospread (App.safeDefaultReview .en "uc" []) [("scores", .obj [])]) "scores"
      = some (.obj [])
    ∧ oget (ospread (App.safeDefaultReview .en "uc" []) [("overall_stars", .num 5)]) "language"
      = oget (App.safeDefaultReview .en "uc" []) "language" :=
  ⟨(claim_C2 .en "uc" []).2.2.1 [("scores", .obj [])] [] rfl,
   (claim_C2 .en "uc" []).2.2.2.2 "language" (by decide)⟩

/-- C3: the review normalization path always returns and never propagates an
exception — every external-call outcome is matched by a `try`/`catch` in the
source and the model is a total function of those outcomes.  Whenever the
backend did not already return a parsed response and the generation text
fails to parse as JSON, the result is the default review record unchanged,
and the failure is surfaced only through the soft-warning flag
(`setError("AI review fallback used (Gemini parsing failed).")`). -/
theorem claim_C3 (lang : Lang) (mk : String) (answers : AnswerMap)
    (b : BackendOutcome) (parse : String → Option JObj) (extract : String → String)
    (t : String)
    (hb : ∀ d, b ≠ .okJson (some d))
    (ht : ¬ jsTrim t = "")
    (hp : parse (extract (jsTrim t)) = none) :
    App.buildAIReview lang mk answers b (.text t) parse extract
      = (App.safeDefaultReview lang mk answers, true) := by
  cases b with
  | okJson p =>
      cases p with
      | some d => exact absurd rfl (hb d)
      | none => simp [App.buildAIReview, ht, hp]
  | noUrl => simp [App.buildAIReview, ht, hp]
  | netErr => simp [App.buildAIReview, ht, hp]
  | notOk => simp [App.buildAIReview, ht, hp]

/-- C3 witness: with no backend configured, a Gemini text that is not JSON
(under a parser that rejects everything) yields the untouched default plus
the soft warning. -/
theorem claim_C3_witness :
    App.buildAIReview .en "pip" [] .noUrl (.text "not json") (fun _ => none) id
      = (App.safeDefaultReview .en "pip" [], true) :=
  claim_C3 .en "pip" [] .noUrl (fun _ => none) id "not json"
    (fun d h => nomatch h) (by decide) rfl

/-- C4: normalizing an absent external response (`no backend, no Gemini`)
returns `safeDefaultReview` itself, a record in which every required field is
present and defined — including all six score metrics and, for every
improvements entry, the id and the three locale texts — with no `undefined`
leaf at any checked position; and the normalizer is stable: calls with equal
session state (locale, module, answers) return equal records, there being no
dependence on a clock, randomness or other ambient state. -/
theorem claim_C4 (lang : Lang) (mk : String) (answers : AnswerMap) :
    reviewComplete lang (App.safeDefaultReview lang mk answers) = true
    ∧ (∀ (parse : String → Option JObj) (extract : String → String),
        App.buildAIReview lang mk answers .noUrl .unavailable parse extract
          = (App.safeDefaultReview lang mk answers, false))
    ∧ (∀ (lang₂ : Lang) (mk₂ : String) (answers₂ : AnswerMap),
        lang₂ = lang → mk₂ = mk → answers₂ = answers →
        App.safeDefaultReview lang₂ mk₂ answers₂
          = App.safeDefaultReview lang mk answers) := by
  refine ⟨?_, fun parse extract => rfl, fun l₂ m₂ a₂ hl hm ha => by rw [hl, hm, ha]⟩
  cases lang <;>
  · simp [reviewComplete, reviewFields, scoreFields, App.safeDefaultReview,
      fieldPopulated, oget_cons, List.all_map, Function.comp,
      improvementPopulated, List.all_eq_true]
    rintro x k v - rfl
    rfl

/-- C4 witness: the English default review over a one-answer session is
complete, and normalizing with both external paths absent returns it with no
warning. -/
theorem claim_C4_witness :
    reviewComplete .en (App.safeDefaultReview .en "uc" [("claim_type", .str "new")]) = true
    ∧ App.buildAIReview .en "uc" [("claim_type", .str "new")] .noUrl .unavailable
        (fun _ => none) id
      = (App.safeDefaultReview .en "uc" [("claim_type", .str "new")], false)
    ∧ App.safeDefaultReview .en "uc" [("claim_type", .str "new")]
      = App.safeDefaultReview .en "uc" [("claim_type", .str "new")] :=
  ⟨(claim_C4 .en "uc" [("claim_type", .str "new")]).1,
   (claim_C4 .en "uc" [("claim_type", .str "new")]).2.1 (fun _ => none) id,
   (claim_C4 .en "uc" [("claim_type", .str "new")]).2.2 .en "uc"
     [("claim_type", .str "new")] rfl rfl rfl⟩

/-- In a burst of effect runs each starting strictly less than the debounce
window after the previous one, only the final run's timer can survive: the
burst produces exactly that one request (provided the final state does not
hit the skip guard), carrying the final snapshot. -/
theorem genRequests_burst (q : FormQuestion) (runs : List (Nat × AnswerRec))
    (tl : Nat) (al : AnswerRec)
    (hlast : runs.getLast? = some (tl, al))
    (hchain : List.Chain' (fun p r => r.1 < p.1 + debounceWindow) runs)
    (hskip : mustSkip q al = false) :
    FormFlow.genRequests q debounceWindow runs = [(tl + debounceWindow, al)] := by
  induction runs with
  | nil => exact absurd hlast (by simp)
  | cons x t ih =>
      cases t with
      | nil =>
          have hx : x = (tl, al) := by simpa using hlast
          subst hx
          simp [FormFlow.genRequests, hskip]
      | cons y t' =>
          have hlast' : (y :: t').getLast? = some (tl, al) := by
            rwa [List.getLast?_cons_cons] at hlast
          have hrel : y.1 < x.1 + debounceWindow := (List.chain'_cons.mp hchain).1
          have hchain' : List.Chain' (fun p r => r.1 < p.1 + debounceWindow) (y :: t') :=
            (List.chain'_cons.mp hchain).2
          have hres := ih hlast' hchain'
          by_cases hm : mustSkip q x.2
          · simpa [FormFlow.genRequests, hm] using hres
          · simpa [FormFlow.genRequests, hm, Nat.not_le.mpr hrel] using hres

/-- C5, counterexample.  The claim asserts that every burst of rapid edits
(each within the debounce window of the previous) produces exactly one
request.  If the final edit leaves the answer empty for a question without
rating enabled, the skip guard returns before scheduling any timer, so zero
requests are issued: three rapid edits to `claim_type` (values `"new"`,
`"manage"`, then cleared to `""`) at times 0, 100, 200 ms produce no request
at all. -/
theorem claim_C5_cex :
    ((100 : Nat) < 0 + debounceWindow ∧ (200 : Nat) < 100 + debounceWindow)
    ∧ FormFlow.genRequests uc_claim_type debounceWindow
        [(0, Fix.editNew), (100, Fix.editManage), (200, Fix.editEmpty)] = [] :=
  ⟨by decide, rfl⟩

/-- C5 (amended): for every question and every burst of effect runs in which
each run starts strictly less than the debounce window (600 ms) after the
previous one, provided the final run's state does not trigger the skip guard,
exactly one external generation request is issued — the final run's timer —
and the prompt for that single request is built by `generatePrompt` from the
state of the final edit. -/
theorem claim_C5 (lang : Lang) (mid : String) (q : FormQuestion)
    (runs : List (Nat × AnswerRec)) (tl : Nat) (al : AnswerRec)
    (hlast : runs.getLast? = some (tl, al))
    (hchain : List.Chain' (fun p r => r.1 < p.1 + debounceWindow) runs)
    (hskip : mustSkip q al = false) :
    FormFlow.genRequests q debounceWindow runs = [(tl + debounceWindow, al)]
    ∧ (FormFlow.genRequests q debounceWindow runs).map
        (fun r => FormFlow.generatePrompt lang mid q r.2)
      = [FormFlow.generatePrompt lang mid q al] := by
  have h := genRequests_burst q runs tl al hlast hchain hskip
  exact ⟨h, by rw [h]; rfl⟩

/-- C5 witness: three rapid edits to `claim_type` (`"new"`, `"manage"`,
`"new"` at 0, 100, 200 ms) produce exactly one request, fired at 800 ms with
the third edit's snapshot, whose prompt is built from that snapshot. -/
theorem claim_C5_witness :
    FormFlow.genRequests uc_claim_type debounceWindow
        [(0, Fix.editNew), (100, Fix.editManage), (200, Fix.editNew)]
      = [(200 + debounceWindow, Fix.editNew)]
    ∧ (FormFlow.genRequests uc_claim_type debounceWindow
        [(0, Fix.editNew), (100, Fix.editManage), (200, Fix.editNew)]).map
        (fun r => FormFlow.generatePrompt .en "uc" uc_claim_type r.2)
      = [FormFlow.generatePrompt .en "uc" uc_claim_type Fix.editNew] :=
  claim_C5 .en "uc" uc_claim_type
    [(0, Fix.editNew), (100, Fix.editManage), (200, Fix.editNew)]
    200 Fix.editNew rfl (by simp [List.chain'_cons, debounceWindow]) (by decide)

/-- The minimum of the spec's rating scale: ratings range over 1..6 with 0
meaning unset, so the least rating value is 1 (likewise the least length
value on the 1..4 scale is 1). -/
def specRatingMin : Nat := 1

/-- C6, counterexample.  The claim says the rating field of every freshly
reset answer record is set to its minimum value.  `makeDefault` assigns
`q.starEnabled ? 1 : 0`: for the catalog question `claim_type` (module `uc`,
not rating-enabled) the default rating is 0 — the unset marker, not the
scale minimum 1. -/
theorem claim_C6_cex : (FormFlow.makeDefault uc_claim_type).rating ≠ specRatingMin := by
  decide

/-- C6 (amended): at first initialization (and in `App`, whose reset effect
empties the whole session on every module or locale switch), every question
of the module receives a record in the fresh store whose value is the
per-type default — empty list for `multi-select`, empty mapping for `group`,
empty string for every other type — whose length is its minimum 1, and whose
rating is its minimum 1 for rating-enabled questions and 0 (unset) for all
others. -/
theorem claim_C6 (qs : List FormQuestion) (q : FormQuestion) (h : q ∈ qs) :
    (∃ a ∈ FormFlow.initStore qs,
      a.questionId = q.id ∧
      a.length = 1 ∧
      a.rating = (if q.starEnabled then 1 else 0) ∧
      a.value = defaultValueFor q.type ∧
      (q.type = .multiSelect → a.value = .strList []) ∧
      (q.type = .group → a.value = .strMap []) ∧
      (q.type ≠ .multiSelect → q.type ≠ .group → a.value = .str "") ∧
      a.files = [] ∧ a.aiResponse = none)
    ∧ App.resetSession.answers = [] ∧ App.resetSession.stars = []
    ∧ App.resetSession.books = [] ∧ App.resetSession.review = none := by
  refine ⟨⟨FormFlow.makeDefault q, List.mem_map_of_mem _ h, rfl, rfl, rfl, rfl,
    ?_, ?_, ?_, rfl, rfl⟩, rfl, rfl, rfl, rfl⟩
  · intro ht
    simp [FormFlow.makeDefault, defaultValueFor, ht]
  · intro ht
    simp [FormFlow.makeDefault, defaultValueFor, ht]
  · intro h1 h2
    cases ht : q.type <;> simp_all [FormFlow.makeDefault, defaultValueFor]

/-- C6 witness: in the two-question module `[claim_type, preparing_food]`,
the fresh store assigns `preparing_food` (rating-enabled, long-text) rating
1, length 1 and the empty string. -/
theorem claim_C6_witness :
    ∃ a ∈ FormFlow.initStore [uc_claim_type, pip_preparing_food],
      a.questionId = "preparing_food" ∧ a.length = 1 ∧ a.rating = 1
      ∧ a.value = .str "" := by
  obtain ⟨⟨a, hmem, hid, hlen, hrat, hval, -, -, hstrv, -, -⟩, -⟩ :=
    claim_C6 [uc_claim_type, pip_preparing_food] pip_preparing_food
      (List.mem_cons_of_mem _ (List.mem_cons_self _ _))
  exact ⟨a, hmem, hid, hlen, by simpa using hrat, by simpa using hstrv (by decide) (by decide)⟩

/-- When every run of a burst trips the skip guard, the fold over the
synchronous effect bodies ends with no pending timer and a cleared
guidance. -/
theorem runGenEffects_all_skip (q : FormQuestion) (runs : List (Nat × AnswerRec))
    (h : ∀ p ∈ runs, mustSkip q p.2 = true) (hne : runs ≠ []) (s : GenState) :
    FormFlow.runGenEffects q debounceWindow runs s
      = { pending := none, aiResponse := none } := by
  induction runs generalizing s with
  | nil => exact absurd rfl hne
  | cons x t ih =>
      have hx : mustSkip q x.2 = true := h x (List.mem_cons_self _ _)
      cases t with
      | nil => simp [FormFlow.runGenEffects, hx]
      | cons y t' =>
          have := ih (fun p hp => h p (List.mem_cons_of_mem _ hp)) (by simp)
          simpa [FormFlow.runGenEffects, hx] using
            this { pending := none, aiResponse := none }

/-- C10: while the current answer state trips the skip guard — empty value
(empty string, empty list or empty mapping) for a question without rating
enabled, or rating 0 for a rating-enabled question — no external generation
request is issued (no timer is ever scheduled across any burst of such runs)
and the stored generated guidance is cleared to `null` instead. -/
theorem claim_C10 (q : FormQuestion) (runs : List (Nat × AnswerRec)) (s : GenState)
    (h : ∀ p ∈ runs, mustSkip q p.2 = true) :
    FormFlow.genRequests q debounceWindow runs = []
    ∧ (runs ≠ [] → FormFlow.runGenEffects q debounceWindow runs s
        = { pending := none, aiResponse := none }) := by
  constructor
  · induction runs with
    | nil => rfl
    | cons x t ih =>
        have hx : mustSkip q x.2 = true := h x (List.mem_cons_self _ _)
        simpa [FormFlow.genRequests, hx] using
          ih (fun p hp => h p (List.mem_cons_of_mem _ hp))
  · intro hne
    exact runGenEffects_all_skip q runs h hne s

/-- C10 witness: a run over the cleared `claim_type` answer issues no request
and resets stale guidance to `null`. -/
theorem claim_C10_witness :
    FormFlow.genRequests uc_claim_type debounceWindow [(0, Fix.editEmpty)] = []
    ∧ FormFlow.runGenEffects uc_claim_type debounceWindow [(0, Fix.editEmpty)]
        { pending := none, aiResponse := some "stale" }
      = { pending := none, aiResponse := none } := by
  have h := claim_C10 uc_claim_type [(0, Fix.editEmpty)]
    { pending := none, aiResponse := some "stale" } (by decide)
  exact ⟨h.1, h.2 (by simp)⟩

/-- `loadAnswers` as a single map over the question list. -/
theorem loadAnswers_eq_map (qs : List FormQuestion) (parsed : List PersistEntry) :
    FormFlow.loadAnswers qs parsed = qs.map (fun q =>
      match parsed.find? (fun x => x.questionId == q.id) with
      | some s => { FormFlow.makeDefault q with
                      rating := s.rating, length := s.length, value := s.value }
      | none => FormFlow.makeDefault q) := by
  unfold FormFlow.loadAnswers
  rw [List.map_map]
  rfl

/-- Searching a keyed projection of a duplicate-free question list for a
question's id finds exactly that question's image. -/
theorem find?_map_by_id {β : Type _} (qs : List FormQuestion) (f : FormQuestion → β)
    (key : β → String) (hkey : ∀ q2, key (f q2) = q2.id)
    (hnd : (qs.map (fun q2 => q2.id)).Nodup) (q : FormQuestion) (hq : q ∈ qs) :
    (qs.map f).find? (fun e => key e == q.id) = some (f q) := by
  induction qs with
  | nil => exact absurd hq (List.not_mem_nil q)
  | cons x t ih =>
      rw [List.map_cons]
      have hnd' : x.id ∉ t.map (fun q2 => q2.id) ∧ (t.map (fun q2 => q2.id)).Nodup := by
        rw [List.map_cons, List.nodup_cons] at hnd
        exact hnd
      by_cases hx : x.id = q.id
      · have hqx : q = x := by
          rcases List.mem_cons.mp hq with h1 | h2
          · exact h1
          · exact absurd (hx ▸ List.mem_map_of_mem (fun q2 => q2.id) h2) hnd'.1
        subst hqx
        rw [List.find?_cons_of_pos _ (by simp [hkey])]
      · have hq' : q ∈ t := by
          rcases List.mem_cons.mp hq with h1 | h2
          · exact absurd (h1 ▸ rfl) hx
          · exact h2
        rw [List.find?_cons_of_neg _ (by simp [hkey, hx]), ih hnd'.2 hq']

/-- For duplicate-free question ids, persisting a loaded store and loading
it again restores the store exactly. -/
theorem loadAnswers_persist_roundtrip (qs : List FormQuestion)
    (parsed : List PersistEntry) (hnd : (qs.map (fun q => q.id)).Nodup) :
    FormFlow.loadAnswers qs (FormFlow.persistProj (FormFlow.loadAnswers qs parsed))
      = FormFlow.loadAnswers qs parsed := by
  rw [loadAnswers_eq_map qs parsed]
  unfold FormFlow.persistProj
  rw [List.map_map, loadAnswers_eq_map]
  apply List.map_congr_left
  intro q hq
  rw [find?_map_by_id qs _ PersistEntry.questionId ?hkey hnd q hq]
  · cases hp : parsed.find? (fun x => x.questionId == q.id) <;> simp [hp]
  case hkey =>
    intro q2
    cases hp : parsed.find? (fun x => x.questionId == q2.id) <;>
      simp [hp, Function.comp, FormFlow.makeDefault]

/-- C7: durable persistence uses the key `form-progress-<moduleId>` and
writes the `{questionId, rating, length, value}` projection of the store on
every mutation (`persistProj`); at load time persisted values are merged into
freshly generated defaults by question id: a persisted entry matching a
current question overrides that question's default rating/length/value, a
question with no persisted entry keeps its full default, persisted entries
whose ids match no current question are ignored, and (for duplicate-free
question ids) persisting a store and reloading it restores it exactly. -/
theorem claim_C7 (qs : List FormQuestion) (parsed : List PersistEntry) :
    (∀ m : String, FormFlow.storageKey m = "form-progress-" ++ m)
    ∧ (∀ q ∈ qs, ∀ s : PersistEntry,
        parsed.find? (fun x => x.questionId == q.id) = some s →
        { FormFlow.makeDefault q with
            rating := s.rating, length := s.length, value := s.value }
          ∈ FormFlow.loadAnswers qs parsed)
    ∧ (∀ q ∈ qs,
        parsed.find? (fun x => x.questionId == q.id) = none →
        FormFlow.makeDefault q ∈ FormFlow.loadAnswers qs parsed)
    ∧ FormFlow.loadAnswers qs
        (parsed.filter (fun s => qs.any (fun q2 => q2.id == s.questionId)))
        = FormFlow.loadAnswers qs parsed
    ∧ ((qs.map (fun q => q.id)).Nodup →
        FormFlow.loadAnswers qs (FormFlow.persistProj (FormFlow.loadAnswers qs parsed))
          = FormFlow.loadAnswers qs parsed) := by
  refine ⟨fun m => rfl, ?_, ?_, ?_, loadAnswers_persist_roundtrip qs parsed⟩
  · intro q hq s hfind
    rw [loadAnswers_eq_map]
    refine List.mem_map.mpr ⟨q, hq, ?_⟩
    rw [hfind]
  · intro q hq hfind
    rw [loadAnswers_eq_map]
    refine List.mem_map.mpr ⟨q, hq, ?_⟩
    rw [hfind]
  · rw [loadAnswers_eq_map, loadAnswers_eq_map]
    apply List.map_congr_left
    intro q hq
    rw [find?_filter_eq_of_imp]
    intro x hx
    have hx' : x.questionId = q.id := by simpa using hx
    exact List.any_eq_true.mpr ⟨q, hq, by simp [hx']⟩

/-- C7 witness: a persisted entry for `claim_type` overrides the default
record of the one-question module, and persisting then reloading the fresh
store is the identity. -/
theorem claim_C7_witness :
    { FormFlow.makeDefault uc_claim_type with
        rating := 5, length := 2, value := AnsValue.str "new" }
      ∈ FormFlow.loadAnswers [uc_claim_type]
          [{ questionId := "claim_type", rating := 5, length := 2, value := .str "new" }]
    ∧ FormFlow.loadAnswers [uc_claim_type]
        (FormFlow.persistProj (FormFlow.loadAnswers [uc_claim_type] []))
        = FormFlow.loadAnswers [uc_claim_type] [] :=
  ⟨(claim_C7 [uc_claim_type]
      [{ questionId := "claim_type", rating := 5, length := 2, value := .str "new" }]).2.1
      uc_claim_type (List.mem_cons_self _ _) _ rfl,
   (claim_C7 [uc_claim_type] []).2.2.2.2 (by simp)⟩

/-- The name-only projection underlying `v?.name || null`. -/
def nameOnly (n : Option String) : JValue :=
  match n with
  | none => .null
  | some s => if s = "" then .null else .str s

theorem fileNameOrNull_eq (f : Option FileRef) :
    fileNameOrNull f = nameOnly (f.map FileRef.name) := by
  cases f <;> rfl

/-- The exported file field depends only on the file names. -/
theorem filesField_congr (files files₂ : List (String × Option FileRef))
    (h : files.map (fun p => (p.1, p.2.map FileRef.name))
        = files₂.map (fun p => (p.1, p.2.map FileRef.name))) :
    files.map (fun p => (p.1, fileNameOrNull p.2))
      = files₂.map (fun p => (p.1, fileNameOrNull p.2)) := by
  have h2 := congrArg (List.map (fun p : String × Option String => (p.1, nameOnly p.2))) h
  simpa [List.map_map, Function.comp, fileNameOrNull_eq] using h2

/-- C8: the structured export document (`exportJSON`) carries the answer
store verbatim under `answers` — reading that field back reproduces, for
every question id, exactly the stored value — while attached evidence files
appear under `files`/`proofs` only through `v?.name || null`: the document is
unchanged when file contents change as long as the names agree.  (The
`JSON.stringify`/`JSON.parse` pair through which the document travels is the
platform's inverse codec; the model works on the document structure it
serializes.) -/
theorem claim_C8 (lang : Lang) (mk : String) (answers : AnswerMap)
    (files proofs : List (String × Option FileRef)) (stars books : List (String × Nat))
    (review : Option JObj) :
    oget (App.exportJSONDoc lang mk answers files proofs stars books review) "answers"
      = some (.obj (answers.map (fun p => (p.1, p.2.toJ))))
    ∧ (∀ k, oget (answers.map (fun p => (p.1, p.2.toJ))) k
        = (aget answers k).map AnsValue.toJ)
    ∧ oget (App.exportJSONDoc lang mk answers files proofs stars books review) "files"
      = some (.obj (files.map (fun p => (p.1, fileNameOrNull p.2))))
    ∧ (∀ files₂ proofs₂,
        files.map (fun p => (p.1, p.2.map FileRef.name))
          = files₂.map (fun p => (p.1, p.2.map FileRef.name)) →
        proofs.map (fun p => (p.1, p.2.map FileRef.name))
          = proofs₂.map (fun p => (p.1, p.2.map FileRef.name)) →
        App.exportJSONDoc lang mk answers files₂ proofs₂ stars books review
          = App.exportJSONDoc lang mk answers files proofs stars books review) := by
  refine ⟨rfl, fun k => oget_map_toJ answers k, rfl, ?_⟩
  intro files₂ proofs₂ hf hp
  have ef := filesField_congr files files₂ hf
  have ep := filesField_congr proofs proofs₂ hp
  unfold App.exportJSONDoc
  rw [← ef, ← ep]

/-- C8 witness: exporting the same session with the same file names but
different file contents produces identical documents, and the `answers`
field reads back the stored `claim_type` value. -/
theorem claim_C8_witness :
    App.exportJSONDoc .en "uc" [("claim_type", .str "new")]
        [("claim_type", some { name := "evidence.pdf", content := "CONTENTS-A" })]
        [] [] [] none
      = App.exportJSONDoc .en "uc" [("claim_type", .str "new")]
        [("claim_type", some { name := "evidence.pdf", content := "CONTENTS-B" })]
        [] [] [] none
    ∧ oget ([("claim_type", AnsValue.str "new")].map (fun p => (p.1, p.2.toJ)))
        "claim_type" = some (.str "new") := by
  constructor
  · exact (claim_C8 .en "uc" [("claim_type", .str "new")]
      [("claim_type", some { name := "evidence.pdf", content := "CONTENTS-B" })]
      [] [] [] none).2.2.2
      [("claim_type", some { name := "evidence.pdf", content := "CONTENTS-A" })]
      [] rfl rfl
  · have h := (claim_C8 .en "uc" [("claim_type", .str "new")] [] [] [] [] none).2.1
      "claim_type"
    simpa using h
